import Mathlib

/-!
Shallow embedding of the raw TiKV client facade (`src/raw/client.rs`).

The layer under verification builds one request descriptor per public
operation, validates scan limits before dispatch, hands the descriptor and a
retry policy to an external execution delegate, and reshapes the delegate's
raw answer (truncation, key-only projection) into the caller-visible result.

Modelling conventions:
* byte strings (`Key`, `Value`) are lists of naturals;
* the shared `Arc<PdRpcClient>` delegate reference is modelled by a reference
  identity (`rpc : Nat`); cloning the handle copies the identity, which is
  exactly what `Arc::clone` observably does at this layer;
* a method taking `&self` is embedded as a pure function; where a claim is
  about the receiver being left unchanged, the embedding returns the
  receiver after the call as an explicit extra component;
* the execution delegate is a parameter `exec : ExecCall → Except Error _`;
  each operation records the list of delegate invocations it performed
  (`calls`), so that "fails before any call to the delegate" is a statement
  about that list being empty.
-/

/-- An opaque ordered byte sequence (`Key` in the crate). -/
abbrev Key := List Nat

/-- An opaque byte sequence with no ordering semantics (`Value` in the crate). -/
abbrev Value := List Nat

/-- An owned key-value pair (`KvPair` in the crate). -/
structure KvPair where
  key : Key
  value : Value
deriving DecidableEq, Repr

/-- Decomposition of a pair back into its key (`KvPair::into_key`). -/
def KvPair.into_key (p : KvPair) : Key :=
  p.key

/-- One endpoint of a `BoundRange`: inclusive, exclusive or unbounded. -/
inductive Bound where
  | included (k : Key)
  | excluded (k : Key)
  | unbounded
deriving DecidableEq, Repr

/-- A half-open-or-closed interval over key space (`BoundRange` in the crate). -/
structure BoundRange where
  lo : Bound
  hi : Bound
deriving DecidableEq, Repr

/-- Modelled from the spec: `ColumnFamily` is defined outside `src/` in the
crate; the spec describes it as a closed enumeration (for example Default,
Write, Lock) identifying a keyspace partition. The claims quantify over an
arbitrary member, so the exact constructor set is immaterial. -/
inductive ColumnFamily where
  | cfDefault
  | cfWrite
  | cfLock
deriving DecidableEq, Repr

/-- Modelled from the spec: `RetryOptions` is defined outside `src/`; the spec
describes it as a policy value, of which this core always selects the
"optimistic default" (`RetryOptions::default_optimistic()`), exposing no
per-call override. A second policy value witnesses that the choice is not
vacuous. -/
inductive RetryOptions where
  | default_optimistic
  | default_pessimistic
deriving DecidableEq, Repr

/-- Modelled from the spec: the error taxonomy surfaced by this core.
`MaxScanLimitExceeded` is the local validation error carrying the requested
limit and the cap; every other delegate error is propagated unchanged and is
represented by an opaque code. -/
inductive Error where
  | MaxScanLimitExceeded (limit : Nat) (max_limit : Nat)
  | execError (code : Nat)
deriving DecidableEq, Repr

/-- The request descriptor built by the per-operation constructor functions in
`super::requests` (`new_raw_get_request`, `new_raw_scan_request`, ...): one
variant per operation kind, each carrying the operation's arguments and the
optional column-family scope attached by the client. -/
inductive RawRequest where
  | get (key : Key) (cf : Option ColumnFamily)
  | batch_get (keys : List Key) (cf : Option ColumnFamily)
  | put (key : Key) (value : Value) (cf : Option ColumnFamily)
  | batch_put (pairs : List KvPair) (cf : Option ColumnFamily)
  | update (key : Key) (value : Value) (cf : Option ColumnFamily)
  | batch_update (pairs : List KvPair) (cf : Option ColumnFamily)
  | delete (key : Key) (cf : Option ColumnFamily)
  | batch_delete (keys : List Key) (cf : Option ColumnFamily)
  | delete_range (range : BoundRange) (cf : Option ColumnFamily)
  | scan (range : BoundRange) (limit : Nat) (key_only : Bool) (cf : Option ColumnFamily)
  | batch_scan (ranges : List BoundRange) (each_limit : Nat) (key_only : Bool)
      (cf : Option ColumnFamily)
deriving DecidableEq, Repr

/-- The column-family scope attached to a request descriptor. -/
def RawRequest.cf : RawRequest → Option ColumnFamily
  | .get _ cf => cf
  | .batch_get _ cf => cf
  | .put _ _ cf => cf
  | .batch_put _ cf => cf
  | .update _ _ cf => cf
  | .batch_update _ cf => cf
  | .delete _ cf => cf
  | .batch_delete _ cf => cf
  | .delete_range _ cf => cf
  | .scan _ _ _ cf => cf
  | .batch_scan _ _ _ cf => cf

/-- One invocation of the execution delegate: the descriptor together with the
retry policy passed to `KvRequest::execute`. -/
structure ExecCall where
  req : RawRequest
  retry : RetryOptions
deriving DecidableEq, Repr

/-- The raw `Client`: a shared execution-delegate reference (the
`Arc<PdRpcClient>` field `rpc`, modelled by its reference identity) and an
optional column-family scope (`cf`). -/
structure Client where
  rpc : Nat
  cf : Option ColumnFamily
deriving DecidableEq, Repr

/-- `MAX_RAW_KV_SCAN_LIMIT` from `client.rs`. -/
def MAX_RAW_KV_SCAN_LIMIT : Nat := 10240

/-- `#[derive(Clone)]` on `Client`: `Arc::clone` shares the delegate
reference (same identity) and the optional scope is copied. -/
def Client.clone (c : Client) : Client :=
  { rpc := c.rpc, cf := c.cf }

/-- Client configuration (`Config`), opaque at this layer: it is only passed
through to the delegate's connect path. -/
structure Config where

/-- The default configuration used by `Client::new`. -/
def Config.default : Config := {}

/-- `Client::new_with_config`: runs the delegate's construction path
(`PdRpcClient::connect`, modelled by the `connect` parameter returning either
an error or a fresh delegate reference) and on success yields a handle with
that delegate and no column-family scope. -/
def Client.new_with_config (pd_endpoints : List String) (config : Config)
    (connect : List String → Config → Except Error Nat) : Except Error Client :=
  (connect pd_endpoints config).map fun rpc => { rpc := rpc, cf := none }

/-- `Client::new`: `new_with_config` with the default configuration. -/
def Client.new (pd_endpoints : List String)
    (connect : List String → Config → Except Error Nat) : Except Error Client :=
  Client.new_with_config pd_endpoints Config.default connect

/-- `Client::with_cf`: builds a new handle from a shared reference to the
receiver. The first component is the returned handle (same `rpc` reference,
scope pinned to `cf`); the second component is the receiver after the call,
which a `&self` method cannot have moved or mutated. -/
def Client.with_cf (c : Client) (cf : ColumnFamily) : Client × Client :=
  ({ rpc := c.rpc, cf := some cf }, c)

/-- Outcome of an operation: the caller-visible result, the list of delegate
invocations performed (in order), and the receiver handle after the call. -/
structure Outcome (α : Type) where
  result : Except Error α
  calls : List ExecCall
  client : Client
deriving Repr

/-- `Client::get`: builds the descriptor with the handle's scope and passes it
with the optimistic-default policy; first component is the delegate call,
second the untouched receiver. -/
def Client.get (c : Client) (key : Key) : ExecCall × Client :=
  (⟨RawRequest.get key c.cf, RetryOptions.default_optimistic⟩, c)

/-- `Client::batch_get`. -/
def Client.batch_get (c : Client) (keys : List Key) : ExecCall × Client :=
  (⟨RawRequest.batch_get keys c.cf, RetryOptions.default_optimistic⟩, c)

/-- `Client::put`. -/
def Client.put (c : Client) (key : Key) (value : Value) : ExecCall × Client :=
  (⟨RawRequest.put key value c.cf, RetryOptions.default_optimistic⟩, c)

/-- `Client::batch_put`. -/
def Client.batch_put (c : Client) (pairs : List KvPair) : ExecCall × Client :=
  (⟨RawRequest.batch_put pairs c.cf, RetryOptions.default_optimistic⟩, c)

/-- `Client::update`. -/
def Client.update (c : Client) (key : Key) (value : Value) : ExecCall × Client :=
  (⟨RawRequest.update key value c.cf, RetryOptions.default_optimistic⟩, c)

/-- `Client::batch_update`. -/
def Client.batch_update (c : Client) (pairs : List KvPair) : ExecCall × Client :=
  (⟨RawRequest.batch_update pairs c.cf, RetryOptions.default_optimistic⟩, c)

/-- `Client::delete`. -/
def Client.delete (c : Client) (key : Key) : ExecCall × Client :=
  (⟨RawRequest.delete key c.cf, RetryOptions.default_optimistic⟩, c)

/-- `Client::batch_delete`. -/
def Client.batch_delete (c : Client) (keys : List Key) : ExecCall × Client :=
  (⟨RawRequest.batch_delete keys c.cf, RetryOptions.default_optimistic⟩, c)

/-- `Client::delete_range`. -/
def Client.delete_range (c : Client) (range : BoundRange) : ExecCall × Client :=
  (⟨RawRequest.delete_range range c.cf, RetryOptions.default_optimistic⟩, c)

/-- `Client::scan_inner`: if the limit exceeds `MAX_RAW_KV_SCAN_LIMIT`, return
`Error::MaxScanLimitExceeded { limit, max_limit }` before any delegate call;
otherwise execute the scan descriptor with the optimistic-default policy and
truncate the successful result to `limit` elements
(`res.map(|mut s| { s.truncate(limit as usize); s })`). -/
def Client.scan_inner (c : Client) (range : BoundRange) (limit : Nat) (key_only : Bool)
    (exec : ExecCall → Except Error (List KvPair)) : Outcome (List KvPair) :=
  if MAX_RAW_KV_SCAN_LIMIT < limit then
    { result := Except.error (Error.MaxScanLimitExceeded limit MAX_RAW_KV_SCAN_LIMIT),
      calls := [], client := c }
  else
    let call : ExecCall :=
      ⟨RawRequest.scan range limit key_only c.cf, RetryOptions.default_optimistic⟩
    { result := (exec call).map fun s => s.take limit,
      calls := [call], client := c }

/-- `Client::scan`: `scan_inner` with `key_only = false`. -/
def Client.scan (c : Client) (range : BoundRange) (limit : Nat)
    (exec : ExecCall → Except Error (List KvPair)) : Outcome (List KvPair) :=
  c.scan_inner range limit false exec

/-- `Client::scan_keys`: `scan_inner` with `key_only = true`, then
`KvPair::into_key` mapped over the successful result. -/
def Client.scan_keys (c : Client) (range : BoundRange) (limit : Nat)
    (exec : ExecCall → Except Error (List KvPair)) : Outcome (List Key) :=
  let o := c.scan_inner range limit true exec
  { result := o.result.map (List.map KvPair.into_key),
    calls := o.calls, client := o.client }

/-- `Client::batch_scan_inner`: if `each_limit` exceeds the cap, return
`Error::MaxScanLimitExceeded` before any delegate call; otherwise execute the
batch-scan descriptor with the optimistic-default policy and return the
delegate's result as-is (no truncation is applied here). -/
def Client.batch_scan_inner (c : Client) (ranges : List BoundRange) (each_limit : Nat)
    (key_only : Bool) (exec : ExecCall → Except Error (List KvPair)) :
    Outcome (List KvPair) :=
  if MAX_RAW_KV_SCAN_LIMIT < each_limit then
    { result := Except.error (Error.MaxScanLimitExceeded each_limit MAX_RAW_KV_SCAN_LIMIT),
      calls := [], client := c }
  else
    let call : ExecCall :=
      ⟨RawRequest.batch_scan ranges each_limit key_only c.cf, RetryOptions.default_optimistic⟩
    { result := exec call, calls := [call], client := c }

/-- `Client::batch_scan`: `batch_scan_inner` with `key_only = false`. -/
def Client.batch_scan (c : Client) (ranges : List BoundRange) (each_limit : Nat)
    (exec : ExecCall → Except Error (List KvPair)) : Outcome (List KvPair) :=
  c.batch_scan_inner ranges each_limit false exec

/-- `Client::batch_scan_keys`: `batch_scan_inner` with `key_only = true`, then
`KvPair::into_key` mapped over the successful result. -/
def Client.batch_scan_keys (c : Client) (ranges : List BoundRange) (each_limit : Nat)
    (exec : ExecCall → Except Error (List KvPair)) : Outcome (List Key) :=
  let o := c.batch_scan_inner ranges each_limit true exec
  { result := o.result.map (List.map KvPair.into_key),
    calls := o.calls, client := o.client }

/-! Basic unfolding lemmas for the two `_inner` scan paths, shared by the
claim theorems below. -/

/-- Evaluation of `scan_inner` when the limit exceeds the cap. -/
lemma scan_inner_over (c : Client) (range : BoundRange) (limit : Nat) (key_only : Bool)
    (exec : ExecCall → Except Error (List KvPair)) (h : MAX_RAW_KV_SCAN_LIMIT < limit) :
    c.scan_inner range limit key_only exec =
      { result := Except.error (Error.MaxScanLimitExceeded limit MAX_RAW_KV_SCAN_LIMIT),
        calls := [], client := c } := by
  simp [Client.scan_inner, h]

/-- Evaluation of `scan_inner` when the limit is within the cap. -/
lemma scan_inner_ok (c : Client) (range : BoundRange) (limit : Nat) (key_only : Bool)
    (exec : ExecCall → Except Error (List KvPair)) (h : limit ≤ MAX_RAW_KV_SCAN_LIMIT) :
    c.scan_inner range limit key_only exec =
      { result := (exec ⟨RawRequest.scan range limit key_only c.cf,
            RetryOptions.default_optimistic⟩).map fun s => s.take limit,
        calls := [⟨RawRequest.scan range limit key_only c.cf,
            RetryOptions.default_optimistic⟩],
        client := c } := by
  simp [Client.scan_inner, Nat.not_lt.mpr h]

/-- Evaluation of `batch_scan_inner` when the limit exceeds the cap. -/
lemma batch_scan_inner_over (c : Client) (ranges : List BoundRange) (each_limit : Nat)
    (key_only : Bool) (exec : ExecCall → Except Error (List KvPair))
    (h : MAX_RAW_KV_SCAN_LIMIT < each_limit) :
    c.batch_scan_inner ranges each_limit key_only exec =
      { result := Except.error (Error.MaxScanLimitExceeded each_limit MAX_RAW_KV_SCAN_LIMIT),
        calls := [], client := c } := by
  simp [Client.batch_scan_inner, h]

/-- Evaluation of `batch_scan_inner` when the limit is within the cap. -/
lemma batch_scan_inner_ok (c : Client) (ranges : List BoundRange) (each_limit : Nat)
    (key_only : Bool) (exec : ExecCall → Except Error (List KvPair))
    (h : each_limit ≤ MAX_RAW_KV_SCAN_LIMIT) :
    c.batch_scan_inner ranges each_limit key_only exec =
      { result := exec ⟨RawRequest.batch_scan ranges each_limit key_only c.cf,
            RetryOptions.default_optimistic⟩,
        calls := [⟨RawRequest.batch_scan ranges each_limit key_only c.cf,
            RetryOptions.default_optimistic⟩],
        client := c } := by
  simp [Client.batch_scan_inner, Nat.not_lt.mpr h]

/-- Mapping a shaping function over a delegate answer cannot manufacture a
`MaxScanLimitExceeded` error that the delegate did not produce. -/
lemma map_ne_msle {α β : Type} (e : Except Error α) (f : α → β)
    (h : ∀ l2 m2, e ≠ Except.error (Error.MaxScanLimitExceeded l2 m2)) (l m : Nat) :
    Except.map f e ≠ Except.error (Error.MaxScanLimitExceeded l m) := by
  cases e with
  | ok a =>
    intro hc
    cases hc
  | error err =>
    have hred : Except.map f (Except.error err : Except Error α)
        = (Except.error err : Except Error β) := rfl
    rw [hred]
    intro hc
    injection hc with h1
    exact h l m (by rw [h1])

/-- Every delegate call recorded by `scan_inner` carries the handle's scope
and the optimistic-default retry policy. -/
lemma scan_inner_calls_cf (c : Client) (range : BoundRange) (limit : Nat) (key_only : Bool)
    (exec : ExecCall → Except Error (List KvPair)) :
    ∀ k ∈ (c.scan_inner range limit key_only exec).calls,
      k.req.cf = c.cf ∧ k.retry = RetryOptions.default_optimistic := by
  intro k hk
  by_cases h : MAX_RAW_KV_SCAN_LIMIT < limit
  · rw [scan_inner_over c range limit key_only exec h] at hk
    cases hk
  · rw [scan_inner_ok c range limit key_only exec (Nat.not_lt.mp h)] at hk
    simp only [List.mem_singleton] at hk
    subst hk
    exact ⟨rfl, rfl⟩

/-- Every delegate call recorded by `batch_scan_inner` carries the handle's
scope and the optimistic-default retry policy. -/
lemma batch_scan_inner_calls_cf (c : Client) (ranges : List BoundRange) (each_limit : Nat)
    (key_only : Bool) (exec : ExecCall → Except Error (List KvPair)) :
    ∀ k ∈ (c.batch_scan_inner ranges each_limit key_only exec).calls,
      k.req.cf = c.cf ∧ k.retry = RetryOptions.default_optimistic := by
  intro k hk
  by_cases h : MAX_RAW_KV_SCAN_LIMIT < each_limit
  · rw [batch_scan_inner_over c ranges each_limit key_only exec h] at hk
    cases hk
  · rw [batch_scan_inner_ok c ranges each_limit key_only exec (Nat.not_lt.mp h)] at hk
    simp only [List.mem_singleton] at hk
    subst hk
    exact ⟨rfl, rfl⟩

/-- `scan_inner` hands back the receiver unchanged. -/
lemma scan_inner_client (c : Client) (range : BoundRange) (limit : Nat) (key_only : Bool)
    (exec : ExecCall → Except Error (List KvPair)) :
    (c.scan_inner range limit key_only exec).client = c := by
  by_cases h : MAX_RAW_KV_SCAN_LIMIT < limit <;> simp [Client.scan_inner, h]

/-- `batch_scan_inner` hands back the receiver unchanged. -/
lemma batch_scan_inner_client (c : Client) (ranges : List BoundRange) (each_limit : Nat)
    (key_only : Bool) (exec : ExecCall → Except Error (List KvPair)) :
    (c.batch_scan_inner ranges each_limit key_only exec).client = c := by
  by_cases h : MAX_RAW_KV_SCAN_LIMIT < each_limit <;> simp [Client.batch_scan_inner, h]

/-- C1: for every limit strictly greater than the cap 10240, each of `scan`,
`scan_keys`, `batch_scan` and `batch_scan_keys` fails with
`MaxScanLimitExceeded` carrying the requested limit and the cap, and its
delegate-call trace is empty (the error is raised before any call to the
execution delegate); for every limit at or below the cap, each operation
dispatches exactly one delegate call and its result is the delegate's
(shaped) answer, so no validation error is raised by this layer: whenever the
delegate itself never yields a `MaxScanLimitExceeded` error, the operation
does not either. -/
theorem scan_limit_cap_enforced_before_dispatch (c : Client) (range : BoundRange)
    (ranges : List BoundRange) (limit : Nat)
    (exec : ExecCall → Except Error (List KvPair)) :
    (MAX_RAW_KV_SCAN_LIMIT < limit →
      ((c.scan range limit exec).result
          = Except.error (Error.MaxScanLimitExceeded limit MAX_RAW_KV_SCAN_LIMIT)
        ∧ (c.scan range limit exec).calls = [])
      ∧ ((c.scan_keys range limit exec).result
          = Except.error (Error.MaxScanLimitExceeded limit MAX_RAW_KV_SCAN_LIMIT)
        ∧ (c.scan_keys range limit exec).calls = [])
      ∧ ((c.batch_scan ranges limit exec).result
          = Except.error (Error.MaxScanLimitExceeded limit MAX_RAW_KV_SCAN_LIMIT)
        ∧ (c.batch_scan ranges limit exec).calls = [])
      ∧ ((c.batch_scan_keys ranges limit exec).result
          = Except.error (Error.MaxScanLimitExceeded limit MAX_RAW_KV_SCAN_LIMIT)
        ∧ (c.batch_scan_keys ranges limit exec).calls = []))
    ∧ (limit ≤ MAX_RAW_KV_SCAN_LIMIT →
      ((c.scan range limit exec).calls
          = [⟨RawRequest.scan range limit false c.cf, RetryOptions.default_optimistic⟩]
        ∧ (c.scan range limit exec).result
          = (exec ⟨RawRequest.scan range limit false c.cf,
              RetryOptions.default_optimistic⟩).map fun s => s.take limit)
      ∧ (c.scan_keys range limit exec).calls
          = [⟨RawRequest.scan range limit true c.cf, RetryOptions.default_optimistic⟩]
      ∧ ((c.batch_scan ranges limit exec).calls
          = [⟨RawRequest.batch_scan ranges limit false c.cf, RetryOptions.default_optimistic⟩]
        ∧ (c.batch_scan ranges limit exec).result
          = exec ⟨RawRequest.batch_scan ranges limit false c.cf,
              RetryOptions.default_optimistic⟩)
      ∧ (c.batch_scan_keys ranges limit exec).calls
          = [⟨RawRequest.batch_scan ranges limit true c.cf, RetryOptions.default_optimistic⟩]
      ∧ (∀ l m,
          (∀ k l2 m2, exec k ≠ Except.error (Error.MaxScanLimitExceeded l2 m2)) →
            (c.scan range limit exec).result
                ≠ Except.error (Error.MaxScanLimitExceeded l m)
            ∧ (c.scan_keys range limit exec).result
                ≠ Except.error (Error.MaxScanLimitExceeded l m)
            ∧ (c.batch_scan ranges limit exec).result
                ≠ Except.error (Error.MaxScanLimitExceeded l m)
            ∧ (c.batch_scan_keys ranges limit exec).result
                ≠ Except.error (Error.MaxScanLimitExceeded l m))) := by
  constructor
  · intro h
    refine ⟨⟨?_, ?_⟩, ⟨?_, ?_⟩, ⟨?_, ?_⟩, ⟨?_, ?_⟩⟩ <;>
      simp [Client.scan, Client.scan_keys, Client.batch_scan, Client.batch_scan_keys,
        scan_inner_over c range limit false exec h,
        scan_inner_over c range limit true exec h,
        batch_scan_inner_over c ranges limit false exec h,
        batch_scan_inner_over c ranges limit true exec h, Except.map]
  · intro h
    have hsf := scan_inner_ok c range limit false exec h
    have hst := scan_inner_ok c range limit true exec h
    have hbf := batch_scan_inner_ok c ranges limit false exec h
    have hbt := batch_scan_inner_ok c ranges limit true exec h
    refine ⟨⟨?_, ?_⟩, ?_, ⟨?_, ?_⟩, ?_, ?_⟩
    · simp [Client.scan, hsf]
    · simp [Client.scan, hsf]
    · simp [Client.scan_keys, hst]
    · simp [Client.batch_scan, hbf]
    · simp [Client.batch_scan, hbf]
    · simp [Client.batch_scan_keys, hbt]
    · intro l m hne
      refine ⟨?_, ?_, ?_, ?_⟩
      · simp only [Client.scan, hsf]
        exact map_ne_msle _ _ (fun a b => hne _ a b) l m
      · simp only [Client.scan_keys, hst]
        exact map_ne_msle _ _
          (fun a b => map_ne_msle _ _ (fun a2 b2 => hne _ a2 b2) a b) l m
      · simp only [Client.batch_scan, hbf]
        exact fun hc => hne _ l m hc
      · simp only [Client.batch_scan_keys, hbt]
        exact map_ne_msle _ _ (fun a b => hne _ a b) l m

/-- Witness for C1: the spec's concrete scenario, `scan` at limit 20000
against the cap 10240 returns the validation error without any delegate
call. -/
theorem scan_limit_cap_witness :
    MAX_RAW_KV_SCAN_LIMIT < 20000
    ∧ (Client.scan { rpc := 0, cf := none }
          { lo := Bound.unbounded, hi := Bound.unbounded } 20000
          (fun _ => Except.ok [])).result
        = Except.error (Error.MaxScanLimitExceeded 20000 MAX_RAW_KV_SCAN_LIMIT)
    ∧ (Client.scan { rpc := 0, cf := none }
          { lo := Bound.unbounded, hi := Bound.unbounded } 20000
          (fun _ => Except.ok [])).calls = [] :=
  ⟨by decide,
    ((scan_limit_cap_enforced_before_dispatch { rpc := 0, cf := none }
        { lo := Bound.unbounded, hi := Bound.unbounded } [] 20000
        (fun _ => Except.ok [])).1 (by decide)).1.1,
    ((scan_limit_cap_enforced_before_dispatch { rpc := 0, cf := none }
        { lo := Bound.unbounded, hi := Bound.unbounded } [] 20000
        (fun _ => Except.ok [])).1 (by decide)).1.2⟩

/-- C2: for every limit at or below the cap, when the delegate answers with a
pair sequence, the sequence `scan` returns is `List.take limit` of it — its
length is at most `limit` even when the delegate returned more, it is an
initial segment of the delegate's sequence (so ascending key order is
preserved: any pairwise ordering of the delegate's sequence carries over),
and the `scan_keys` result is likewise bounded by `limit`. -/
theorem scan_result_bounded_by_limit (c : Client) (range : BoundRange) (limit : Nat)
    (exec : ExecCall → Except Error (List KvPair)) (pairs kpairs : List KvPair)
    (hlim : limit ≤ MAX_RAW_KV_SCAN_LIMIT)
    (hex : exec ⟨RawRequest.scan range limit false c.cf, RetryOptions.default_optimistic⟩
      = Except.ok pairs)
    (hexk : exec ⟨RawRequest.scan range limit true c.cf, RetryOptions.default_optimistic⟩
      = Except.ok kpairs) :
    (c.scan range limit exec).result = Except.ok (pairs.take limit)
    ∧ (pairs.take limit).length ≤ limit
    ∧ pairs.take limit ++ pairs.drop limit = pairs
    ∧ (∀ r : KvPair → KvPair → Prop, pairs.Pairwise r → (pairs.take limit).Pairwise r)
    ∧ (c.scan_keys range limit exec).result
        = Except.ok ((kpairs.take limit).map KvPair.into_key)
    ∧ ((kpairs.take limit).map KvPair.into_key).length ≤ limit := by
  refine ⟨?_, ?_, ?_, ?_, ?_, ?_⟩
  · simp [Client.scan, scan_inner_ok c range limit false exec hlim, hex, Except.map]
  · simp [List.length_take_le]
  · exact List.take_append_drop limit pairs
  · exact fun r hp => hp.sublist (List.take_sublist limit pairs)
  · simp [Client.scan_keys, scan_inner_ok c range limit true exec hlim, hexk, Except.map]
  · simp [List.length_take_le]

/-- Witness for C2: at limit 1 and a two-pair delegate answer, `scan` returns
only the first pair. -/
theorem scan_result_bounded_witness :
    (1 : Nat) ≤ MAX_RAW_KV_SCAN_LIMIT
    ∧ (Client.scan { rpc := 0, cf := none }
          { lo := Bound.unbounded, hi := Bound.unbounded } 1
          (fun _ => Except.ok [{ key := [0], value := [] }, { key := [1], value := [] }])).result
        = Except.ok ([({ key := [0], value := [] } : KvPair),
            { key := [1], value := [] }].take 1) :=
  ⟨by decide,
    (scan_result_bounded_by_limit { rpc := 0, cf := none }
        { lo := Bound.unbounded, hi := Bound.unbounded } 1
        (fun _ => Except.ok [{ key := [0], value := [] }, { key := [1], value := [] }])
        [{ key := [0], value := [] }, { key := [1], value := [] }]
        [{ key := [0], value := [] }, { key := [1], value := [] }]
        (by decide) rfl rfl).1⟩

/-- Counterexample to C3: with `each_limit = 1` and a delegate answering two
pairs, `batch_scan` returns both pairs — the batch-scan path applies no
truncation, so the returned sequence does not have exactly `limit` elements. -/
theorem batch_scan_not_truncated_cex :
    (Client.batch_scan { rpc := 0, cf := none }
        [{ lo := Bound.unbounded, hi := Bound.unbounded }] 1
        (fun _ => Except.ok [{ key := [0], value := [0] }, { key := [1], value := [1] }])).result
      = Except.ok [{ key := [0], value := [0] }, { key := [1], value := [1] }]
    ∧ ([({ key := [0], value := [0] } : KvPair), { key := [1], value := [1] }].length = 1
        → False) :=
  ⟨rfl, by decide⟩

/-- C3 amended: the truncation to `limit` elements (preserving ascending key
order, since it keeps an initial segment) is applied by `scan` and
`scan_keys` only; `batch_scan` and `batch_scan_keys` return the delegate's
sequence unchanged (key projection aside), consistently with the documented
caveat that each range may yield more than `each_limit` pairs. -/
theorem scan_truncates_batch_passes_through (c : Client) (range : BoundRange)
    (ranges : List BoundRange) (limit : Nat)
    (exec : ExecCall → Except Error (List KvPair))
    (h : limit ≤ MAX_RAW_KV_SCAN_LIMIT) :
    ((c.batch_scan ranges limit exec).result
        = exec ⟨RawRequest.batch_scan ranges limit false c.cf,
            RetryOptions.default_optimistic⟩)
    ∧ ((c.batch_scan_keys ranges limit exec).result
        = (exec ⟨RawRequest.batch_scan ranges limit true c.cf,
            RetryOptions.default_optimistic⟩).map (List.map KvPair.into_key))
    ∧ (∀ pairs,
        exec ⟨RawRequest.scan range limit false c.cf, RetryOptions.default_optimistic⟩
            = Except.ok pairs →
          limit ≤ pairs.length →
            (c.scan range limit exec).result = Except.ok (pairs.take limit)
            ∧ (pairs.take limit).length = limit
            ∧ (∀ r : KvPair → KvPair → Prop,
                pairs.Pairwise r → (pairs.take limit).Pairwise r)) := by
  refine ⟨?_, ?_, ?_⟩
  · simp [Client.batch_scan, batch_scan_inner_ok c ranges limit false exec h]
  · simp [Client.batch_scan_keys, batch_scan_inner_ok c ranges limit true exec h]
  · intro pairs hex hlen
    refine ⟨?_, ?_, ?_⟩
    · simp [Client.scan, scan_inner_ok c range limit false exec h, hex, Except.map]
    · simp [List.length_take, Nat.min_eq_left hlen]
    · exact fun r hp => hp.sublist (List.take_sublist limit pairs)

/-- Witness for the amended C3: at `each_limit = 1` the batch-scan result is
the delegate's two-pair answer unchanged, while `scan` truncates the same
answer to one pair. -/
theorem scan_truncates_batch_witness :
    (1 : Nat) ≤ MAX_RAW_KV_SCAN_LIMIT
    ∧ (Client.batch_scan { rpc := 0, cf := none }
          [{ lo := Bound.unbounded, hi := Bound.unbounded }] 1
          (fun _ => Except.ok [{ key := [2], value := [] }, { key := [3], value := [] }])).result
        = Except.ok [{ key := [2], value := [] }, { key := [3], value := [] }]
    ∧ (Client.scan { rpc := 0, cf := none }
          { lo := Bound.unbounded, hi := Bound.unbounded } 1
          (fun _ => Except.ok [{ key := [2], value := [] }, { key := [3], value := [] }])).result
        = Except.ok ([({ key := [2], value := [] } : KvPair),
            { key := [3], value := [] }].take 1) :=
  ⟨by decide,
    (scan_truncates_batch_passes_through { rpc := 0, cf := none }
        { lo := Bound.unbounded, hi := Bound.unbounded }
        [{ lo := Bound.unbounded, hi := Bound.unbounded }] 1
        (fun _ => Except.ok [{ key := [2], value := [] }, { key := [3], value := [] }])
        (by decide)).1,
    ((scan_truncates_batch_passes_through { rpc := 0, cf := none }
        { lo := Bound.unbounded, hi := Bound.unbounded }
        [{ lo := Bound.unbounded, hi := Bound.unbounded }] 1
        (fun _ => Except.ok [{ key := [2], value := [] }, { key := [3], value := [] }])
        (by decide)).2.2 [{ key := [2], value := [] }, { key := [3], value := [] }]
        rfl (by decide)).1⟩

/-- C4: whenever the delegate yields the same answer for the key-only and the
plain scan descriptor on a range and limit, the `scan_keys` result is exactly
the `scan` result with `KvPair::into_key` mapped over it — the projection is
applied to the already-truncated sequence, so keys come in the same order
with values stripped. -/
theorem scan_keys_is_key_projection_of_scan (c : Client) (range : BoundRange) (limit : Nat)
    (exec : ExecCall → Except Error (List KvPair))
    (h : exec ⟨RawRequest.scan range limit true c.cf, RetryOptions.default_optimistic⟩
       = exec ⟨RawRequest.scan range limit false c.cf, RetryOptions.default_optimistic⟩) :
    (c.scan_keys range limit exec).result
      = ((c.scan range limit exec).result).map (List.map KvPair.into_key) := by
  by_cases hlim : MAX_RAW_KV_SCAN_LIMIT < limit
  · simp [Client.scan_keys, Client.scan,
      scan_inner_over c range limit true exec hlim,
      scan_inner_over c range limit false exec hlim, Except.map]
  · simp only [Client.scan_keys, Client.scan,
      scan_inner_ok c range limit true exec (Nat.not_lt.mp hlim),
      scan_inner_ok c range limit false exec (Nat.not_lt.mp hlim), h]

/-- Witness for C4: with a one-pair delegate answer, `scan_keys` returns the
key of the pair `scan` returns. -/
theorem scan_keys_projection_witness :
    (Client.scan_keys { rpc := 0, cf := none }
        { lo := Bound.unbounded, hi := Bound.unbounded } 5
        (fun _ => Except.ok [{ key := [7], value := [9] }])).result
      = ((Client.scan { rpc := 0, cf := none }
          { lo := Bound.unbounded, hi := Bound.unbounded } 5
          (fun _ => Except.ok [{ key := [7], value := [9] }])).result).map
            (List.map KvPair.into_key) :=
  scan_keys_is_key_projection_of_scan { rpc := 0, cf := none }
    { lo := Bound.unbounded, hi := Bound.unbounded } 5
    (fun _ => Except.ok [{ key := [7], value := [9] }]) rfl

/-- C5: the scan truncation is a no-op on delegate answers already within the
limit, and is idempotent — any sequence `scan` returns is unchanged by a
second truncation to the same limit, and truncating twice equals truncating
once. -/
theorem scan_truncation_noop_and_idempotent (c : Client) (range : BoundRange) (limit : Nat)
    (exec : ExecCall → Except Error (List KvPair)) (s : List KvPair)
    (hlim : limit ≤ MAX_RAW_KV_SCAN_LIMIT)
    (hex : exec ⟨RawRequest.scan range limit false c.cf, RetryOptions.default_optimistic⟩
      = Except.ok s) :
    (s.length ≤ limit → (c.scan range limit exec).result = Except.ok s)
    ∧ (∀ t, (c.scan range limit exec).result = Except.ok t → t.take limit = t)
    ∧ (s.take limit).take limit = s.take limit := by
  have hres : (c.scan range limit exec).result = Except.ok (s.take limit) := by
    simp [Client.scan, scan_inner_ok c range limit false exec hlim, hex, Except.map]
  refine ⟨?_, ?_, ?_⟩
  · intro hlen
    rw [hres, List.take_of_length_le hlen]
  · intro t ht
    rw [hres] at ht
    injection ht with ht1
    rw [← ht1, List.take_take, Nat.min_self]
  · rw [List.take_take, Nat.min_self]

/-- Witness for C5: a one-pair delegate answer at limit 3 is returned
unchanged, and re-truncating it changes nothing. -/
theorem scan_truncation_idempotent_witness :
    (3 : Nat) ≤ MAX_RAW_KV_SCAN_LIMIT
    ∧ (Client.scan { rpc := 0, cf := none }
          { lo := Bound.unbounded, hi := Bound.unbounded } 3
          (fun _ => Except.ok [{ key := [4], value := [5] }])).result
        = Except.ok [{ key := [4], value := [5] }]
    ∧ ([({ key := [4], value := [5] } : KvPair)].take 3).take 3
        = [({ key := [4], value := [5] } : KvPair)].take 3 :=
  ⟨by decide,
    (scan_truncation_noop_and_idempotent { rpc := 0, cf := none }
        { lo := Bound.unbounded, hi := Bound.unbounded } 3
        (fun _ => Except.ok [{ key := [4], value := [5] }])
        [{ key := [4], value := [5] }] (by decide) rfl).1 (by decide),
    (scan_truncation_noop_and_idempotent { rpc := 0, cf := none }
        { lo := Bound.unbounded, hi := Bound.unbounded } 3
        (fun _ => Except.ok [{ key := [4], value := [5] }])
        [{ key := [4], value := [5] }] (by decide) rfl).2.2⟩

/-- C6: `with_cf` never fails (it is a total function), the handle it returns
shares the receiver's delegate reference and is pinned to the given column
family, and the receiver comes out of the call unchanged. -/
theorem with_cf_new_handle_shares_delegate (c : Client) (cf : ColumnFamily) :
    (c.with_cf cf).1.rpc = c.rpc
    ∧ (c.with_cf cf).1.cf = some cf
    ∧ (c.with_cf cf).2 = c :=
  ⟨rfl, rfl, rfl⟩

/-- C7: every public operation attaches the handle's current optional column
family to its request descriptor, passes the optimistic-default retry policy
to the execution delegate, and leaves the handle unmodified (the receiver
after the call equals the receiver before it). -/
theorem operations_attach_cf_and_default_retry (c : Client) (key : Key) (value : Value)
    (keys : List Key) (pairs : List KvPair) (range : BoundRange) (ranges : List BoundRange)
    (limit : Nat) (exec : ExecCall → Except Error (List KvPair)) :
    ((c.get key).1.req.cf = c.cf
      ∧ (c.get key).1.retry = RetryOptions.default_optimistic ∧ (c.get key).2 = c)
    ∧ ((c.batch_get keys).1.req.cf = c.cf
      ∧ (c.batch_get keys).1.retry = RetryOptions.default_optimistic
      ∧ (c.batch_get keys).2 = c)
    ∧ ((c.put key value).1.req.cf = c.cf
      ∧ (c.put key value).1.retry = RetryOptions.default_optimistic
      ∧ (c.put key value).2 = c)
    ∧ ((c.batch_put pairs).1.req.cf = c.cf
      ∧ (c.batch_put pairs).1.retry = RetryOptions.default_optimistic
      ∧ (c.batch_put pairs).2 = c)
    ∧ ((c.update key value).1.req.cf = c.cf
      ∧ (c.update key value).1.retry = RetryOptions.default_optimistic
      ∧ (c.update key value).2 = c)
    ∧ ((c.batch_update pairs).1.req.cf = c.cf
      ∧ (c.batch_update pairs).1.retry = RetryOptions.default_optimistic
      ∧ (c.batch_update pairs).2 = c)
    ∧ ((c.delete key).1.req.cf = c.cf
      ∧ (c.delete key).1.retry = RetryOptions.default_optimistic ∧ (c.delete key).2 = c)
    ∧ ((c.batch_delete keys).1.req.cf = c.cf
      ∧ (c.batch_delete keys).1.retry = RetryOptions.default_optimistic
      ∧ (c.batch_delete keys).2 = c)
    ∧ ((c.delete_range range).1.req.cf = c.cf
      ∧ (c.delete_range range).1.retry = RetryOptions.default_optimistic
      ∧ (c.delete_range range).2 = c)
    ∧ (∀ k ∈ (c.scan range limit exec).calls,
        k.req.cf = c.cf ∧ k.retry = RetryOptions.default_optimistic)
    ∧ (c.scan range limit exec).client = c
    ∧ (∀ k ∈ (c.scan_keys range limit exec).calls,
        k.req.cf = c.cf ∧ k.retry = RetryOptions.default_optimistic)
    ∧ (c.scan_keys range limit exec).client = c
    ∧ (∀ k ∈ (c.batch_scan ranges limit exec).calls,
        k.req.cf = c.cf ∧ k.retry = RetryOptions.default_optimistic)
    ∧ (c.batch_scan ranges limit exec).client = c
    ∧ (∀ k ∈ (c.batch_scan_keys ranges limit exec).calls,
        k.req.cf = c.cf ∧ k.retry = RetryOptions.default_optimistic)
    ∧ (c.batch_scan_keys ranges limit exec).client = c := by
  refine ⟨⟨rfl, rfl, rfl⟩, ⟨rfl, rfl, rfl⟩, ⟨rfl, rfl, rfl⟩, ⟨rfl, rfl, rfl⟩,
    ⟨rfl, rfl, rfl⟩, ⟨rfl, rfl, rfl⟩, ⟨rfl, rfl, rfl⟩, ⟨rfl, rfl, rfl⟩, ⟨rfl, rfl, rfl⟩,
    ?_, ?_, ?_, ?_, ?_, ?_, ?_, ?_⟩
  · exact scan_inner_calls_cf c range limit false exec
  · exact scan_inner_client c range limit false exec
  · exact scan_inner_calls_cf c range limit true exec
  · exact scan_inner_client c range limit true exec
  · exact batch_scan_inner_calls_cf c ranges limit false exec
  · exact batch_scan_inner_client c ranges limit false exec
  · exact batch_scan_inner_calls_cf c ranges limit true exec
  · exact batch_scan_inner_client c ranges limit true exec

/-- Witness for C7: the single delegate call of a concrete scoped `scan`
carries the handle's scope and the optimistic-default policy. -/
theorem operations_attach_cf_witness :
    (⟨RawRequest.scan { lo := Bound.unbounded, hi := Bound.unbounded } 5 false
          (some ColumnFamily.cfWrite), RetryOptions.default_optimistic⟩ : ExecCall)
      ∈ (Client.scan { rpc := 0, cf := some ColumnFamily.cfWrite }
          { lo := Bound.unbounded, hi := Bound.unbounded } 5
          (fun _ => Except.ok [])).calls
    ∧ ((⟨RawRequest.scan { lo := Bound.unbounded, hi := Bound.unbounded } 5 false
          (some ColumnFamily.cfWrite), RetryOptions.default_optimistic⟩ : ExecCall).req.cf
        = ({ rpc := 0, cf := some ColumnFamily.cfWrite } : Client).cf
      ∧ (⟨RawRequest.scan { lo := Bound.unbounded, hi := Bound.unbounded } 5 false
          (some ColumnFamily.cfWrite), RetryOptions.default_optimistic⟩ : ExecCall).retry
        = RetryOptions.default_optimistic) :=
  ⟨by decide,
    (operations_attach_cf_and_default_retry { rpc := 0, cf := some ColumnFamily.cfWrite }
        [] [] [] [] { lo := Bound.unbounded, hi := Bound.unbounded } [] 5
        (fun _ => Except.ok [])).2.2.2.2.2.2.2.2.2.1
      ⟨RawRequest.scan { lo := Bound.unbounded, hi := Bound.unbounded } 5 false
          (some ColumnFamily.cfWrite), RetryOptions.default_optimistic⟩
      (by decide)⟩

/-- C8: any handle a successful `new_with_config` (and hence `new`) yields
has no column-family scope. -/
theorem connect_success_unscoped (pd_endpoints : List String) (config : Config)
    (connect : List String → Config → Except Error Nat) :
    (∀ cl, Client.new_with_config pd_endpoints config connect = Except.ok cl → cl.cf = none)
    ∧ (∀ cl, Client.new pd_endpoints connect = Except.ok cl → cl.cf = none) := by
  constructor
  · intro cl h
    unfold Client.new_with_config at h
    cases hc : connect pd_endpoints config with
    | ok r =>
      rw [hc] at h
      injection h with h1
      rw [← h1]
    | error e =>
      rw [hc] at h
      cases h
  · intro cl h
    unfold Client.new Client.new_with_config at h
    cases hc : connect pd_endpoints Config.default with
    | ok r =>
      rw [hc] at h
      injection h with h1
      rw [← h1]
    | error e =>
      rw [hc] at h
      cases h

/-- Witness for C8: a concrete successful connect yields an unscoped handle. -/
theorem connect_success_unscoped_witness :
    Client.new_with_config ["node1"] Config.default (fun _ _ => Except.ok 7)
      = Except.ok { rpc := 7, cf := none }
    ∧ ({ rpc := 7, cf := none } : Client).cf = none :=
  ⟨rfl,
    (connect_success_unscoped ["node1"] Config.default (fun _ _ => Except.ok 7)).1
      { rpc := 7, cf := none } rfl⟩

/-- C9: at limit 0 the scan validation passes (0 is below the cap, so the
delegate is dispatched) and whenever the delegate call succeeds, `scan` and
`scan_keys` return the empty sequence no matter how many pairs the delegate
returned. -/
theorem scan_limit_zero_returns_empty (c : Client) (range : BoundRange)
    (exec : ExecCall → Except Error (List KvPair)) (pairs kpairs : List KvPair)
    (hex : exec ⟨RawRequest.scan range 0 false c.cf, RetryOptions.default_optimistic⟩
      = Except.ok pairs)
    (hexk : exec ⟨RawRequest.scan range 0 true c.cf, RetryOptions.default_optimistic⟩
      = Except.ok kpairs) :
    (c.scan range 0 exec).result = Except.ok []
    ∧ (c.scan_keys range 0 exec).result = Except.ok []
    ∧ (c.scan range 0 exec).calls
        = [⟨RawRequest.scan range 0 false c.cf, RetryOptions.default_optimistic⟩] := by
  have h0 : (0 : Nat) ≤ MAX_RAW_KV_SCAN_LIMIT := Nat.zero_le _
  refine ⟨?_, ?_, ?_⟩
  · simp [Client.scan, scan_inner_ok c range 0 false exec h0, hex, Except.map]
  · simp [Client.scan_keys, scan_inner_ok c range 0 true exec h0, hexk, Except.map]
  · simp [Client.scan, scan_inner_ok c range 0 false exec h0]

/-- Witness for C9: a two-pair delegate answer at limit 0 yields the empty
sequence. -/
theorem scan_limit_zero_witness :
    (Client.scan { rpc := 0, cf := none }
        { lo := Bound.unbounded, hi := Bound.unbounded } 0
        (fun _ => Except.ok [{ key := [0], value := [] }, { key := [1], value := [] }])).result
      = Except.ok [] :=
  (scan_limit_zero_returns_empty { rpc := 0, cf := none }
      { lo := Bound.unbounded, hi := Bound.unbounded }
      (fun _ => Except.ok [{ key := [0], value := [] }, { key := [1], value := [] }])
      [{ key := [0], value := [] }, { key := [1], value := [] }]
      [{ key := [0], value := [] }, { key := [1], value := [] }] rfl rfl).1

/-- Counterexample to C10: the derived `Clone` implementation is a public
operation distinct from the connect constructors, and cloning a handle whose
scope is absent produces another handle whose scope is absent — so connect
constructors are not the only public operations producing an unscoped
handle. -/
theorem clone_unscoped_produces_unscoped_cex :
    Client.clone { rpc := 0, cf := none } = { rpc := 0, cf := none }
    ∧ (Client.clone { rpc := 0, cf := none }).cf = none :=
  ⟨rfl, rfl⟩

/-- C10 amended: `with_cf` always yields a handle whose scope is present
(equal to the given column family), and `Clone` preserves the receiver's
fields exactly — so once a handle is scoped, every handle derived from it by
`with_cf` or cloning remains scoped; the connect constructors remain the only
operations that create an unscoped handle from nothing, but cloning an
already-unscoped handle also yields an unscoped one. -/
theorem scoped_handles_stay_scoped (c : Client) (cf : ColumnFamily) :
    (c.with_cf cf).1.cf = some cf
    ∧ Client.clone c = c
    ∧ (Client.clone (c.with_cf cf).1).cf = some cf :=
  ⟨rfl, rfl, rfl⟩
